import Mathlib

/-!
Verification of the contact subsystem of jaxsim (`src/jaxsim/api/contact.py`).

The development shallowly embeds the functions of `contact.py`:

* `Contact.Detection` — the link-level contact classifier `in_contact`
  (lines 137-178 of `contact.py`), over exact rationals.  The terrain height
  query and the collidable-point positions are external inputs (the spec's
  Terrain Model and Kinematics Provider), so they appear as parameters.
* `Contact.Estimator` — `estimate_good_soft_contacts_parameters` and its inner
  `estimate_model_height` (lines 181-250), over exact rationals with the square
  root abstracted as a function parameter.
* `Contact.SoftContact` — the per-point soft contact force law, over the reals.
* `Contact.Dynamics` — `collidable_point_kinematics` and
  `collidable_point_dynamics` (lines 13-46 and 85-134), with the external
  forward-kinematics provider and the representation converter abstracted.
-/

namespace Contact

/-- The velocity-representation tag of jaxsim (`VelRepr`): Inertial, Body or
Mixed frame convention for spatial vectors at the API boundary. -/
inductive VelRepr where
  | Inertial
  | Body
  | Mixed
deriving DecidableEq

namespace Detection

/-- Static description of a model as used by `in_contact`: the ordered list of
link names (`model.link_names()`) and, for every collidable point, the index of
the link it is attached to (`model.kin_dyn_parameters.contact_parameters.body`). -/
structure Model where
  link_names : List String
  body : List Nat

/-- `model.number_of_links()`: the number of links of the model. -/
def Model.number_of_links (m : Model) : Nat :=
  m.link_names.length

/-- Line 168 of `contact.py`: a point `p = (x, y, z)` is below terrain iff
`z ≤ terrain.height(x, y)`. -/
def below_terrain (height : ℚ → ℚ → ℚ) (p : ℚ × ℚ × ℚ) : Bool :=
  decide (p.2.2 ≤ height p.1 p.2.1)

/-- Lines 170-176 of `contact.py`: for every link index `i` in
`range(number_of_links)`, the link is flagged iff some collidable point whose
`body` entry equals `i` is below terrain (`jnp.where(body == i, below_terrain,
False).any()`).  `pos` is the output of `collidable_point_positions`. -/
def links_in_contact (m : Model) (height : ℚ → ℚ → ℚ)
    (pos : List (ℚ × ℚ × ℚ)) : List Bool :=
  (List.range m.number_of_links).map fun i =>
    (m.body.zip pos).any fun bp => bp.1 == i && below_terrain height bp.2

/-- The error raised by `in_contact` for an unknown link name (the spec's
`UnknownLinkError`; the code raises `ValueError`). -/
inductive ContactError where
  | UnknownLinkError
deriving DecidableEq

/-- Lines 157-178 of `contact.py`.  The filter defaults to all link names;
if it is not a subset of the model's link names the call fails with
`UnknownLinkError` before any kinematics or terrain computation; otherwise the
dense per-link vector is returned, unaffected by the filter. -/
def in_contact (m : Model) (height : ℚ → ℚ → ℚ) (pos : List (ℚ × ℚ × ℚ))
    (link_names : Option (List String)) : Except ContactError (List Bool) :=
  let names := link_names.getD m.link_names
  if names.all (fun n => m.link_names.contains n) then
    Except.ok (links_in_contact m height pos)
  else
    Except.error ContactError.UnknownLinkError

theorem links_in_contact_length (m : Model) (height : ℚ → ℚ → ℚ)
    (pos : List (ℚ × ℚ × ℚ)) :
    (links_in_contact m height pos).length = m.number_of_links := by
  simp [links_in_contact]

/-- C3: `in_contact` reports link `i` as in contact iff at least one collidable
point attached to link `i` (an index `j` with `body[j] = i`) has world
z-coordinate at most the terrain height at its `(x, y)`; in particular a link
none of whose points are below terrain, or with no collidable points at all, is
reported not in contact. -/
theorem link_in_contact_iff_point_below_terrain (m : Model) (height : ℚ → ℚ → ℚ)
    (pos : List (ℚ × ℚ × ℚ)) (i : Nat) (hi : i < m.number_of_links) :
    (links_in_contact m height pos)[i]? = some true ↔
      ∃ j : Nat, ∃ p : ℚ × ℚ × ℚ,
        m.body[j]? = some i ∧ pos[j]? = some p ∧ p.2.2 ≤ height p.1 p.2.1 := by
  unfold links_in_contact
  rw [List.getElem?_map, List.getElem?_range hi, Option.map_some', Option.some_inj,
    List.any_eq_true]
  constructor
  · rintro ⟨⟨b, p⟩, hmem, hpred⟩
    simp only [Bool.and_eq_true, beq_iff_eq, below_terrain, decide_eq_true_eq] at hpred
    obtain ⟨j, hj⟩ := List.mem_iff_getElem?.mp hmem
    rw [List.getElem?_zip_eq_some] at hj
    exact ⟨j, p, hpred.1 ▸ hj.1, hj.2, hpred.2⟩
  · rintro ⟨j, p, hb, hp, hz⟩
    refine ⟨(i, p), List.mem_iff_getElem?.mpr ⟨j, ?_⟩, ?_⟩
    · rw [List.getElem?_zip_eq_some]; exact ⟨hb, hp⟩
    · simp [below_terrain, hz]

theorem link_in_contact_iff_point_below_terrain_witness :
    1 < (Model.mk ["base", "foot"] [1, 1]).number_of_links ∧
    ((links_in_contact (Model.mk ["base", "foot"] [1, 1]) (fun _ _ => 0)
        [(0, 0, 1), (0, 0, -1)])[1]? = some true ↔
      ∃ j : Nat, ∃ p : ℚ × ℚ × ℚ,
        (Model.mk ["base", "foot"] [1, 1]).body[j]? = some 1 ∧
        ([(0, 0, 1), (0, 0, -1)] : List (ℚ × ℚ × ℚ))[j]? = some p ∧
        p.2.2 ≤ (fun _ _ => (0 : ℚ)) p.1 p.2.1) :=
  ⟨by decide,
    link_in_contact_iff_point_below_terrain (Model.mk ["base", "foot"] [1, 1])
      (fun _ _ => 0) [(0, 0, 1), (0, 0, -1)] 1 (by decide)⟩

/-- C4: calling `in_contact` with a filter containing a name that is not among
the model's link names fails with `UnknownLinkError`, for every terrain and
every collidable-point position list — the check precedes any kinematics or
contact computation, and no partial result is produced. -/
theorem in_contact_unknown_link_error_eager (m : Model) (names : List String)
    (height : ℚ → ℚ → ℚ) (pos : List (ℚ × ℚ × ℚ))
    (hbad : ∃ n ∈ names, n ∉ m.link_names) :
    in_contact m height pos (some names) =
      Except.error ContactError.UnknownLinkError := by
  obtain ⟨n, hn, hnot⟩ := hbad
  unfold in_contact
  rw [if_neg]
  simp only [Option.getD_some, List.all_eq_true, not_forall]
  exact ⟨n, hn, by simpa using hnot⟩

theorem in_contact_unknown_link_error_eager_witness :
    (∃ n ∈ ["unknown_link"], n ∉ (Model.mk ["base"] []).link_names) ∧
    in_contact (Model.mk ["base"] []) (fun _ _ => 0) [] (some ["unknown_link"]) =
      Except.error ContactError.UnknownLinkError :=
  ⟨by decide,
    in_contact_unknown_link_error_eager (Model.mk ["base"] []) ["unknown_link"]
      (fun _ _ => 0) [] (by decide)⟩

/-- C10: for a filter made only of known link names, `in_contact` succeeds and
returns the dense boolean vector of `links_in_contact`, whose length is the
model's total number of links (ordered by link index); the filter is only
validated and does not restrict the evaluation — the result coincides with the
unfiltered call. -/
theorem in_contact_filter_only_validates (m : Model) (height : ℚ → ℚ → ℚ)
    (pos : List (ℚ × ℚ × ℚ)) (names : List String)
    (hgood : ∀ n ∈ names, n ∈ m.link_names) :
    in_contact m height pos (some names) = Except.ok (links_in_contact m height pos) ∧
    (links_in_contact m height pos).length = m.number_of_links ∧
    in_contact m height pos (some names) = in_contact m height pos none := by
  have h1 : in_contact m height pos (some names) =
      Except.ok (links_in_contact m height pos) := by
    unfold in_contact
    rw [if_pos]
    simp only [Option.getD_some, List.all_eq_true]
    intro n hn
    simpa using hgood n hn
  have h2 : in_contact m height pos none =
      Except.ok (links_in_contact m height pos) := by
    unfold in_contact
    rw [if_pos]
    simp [List.all_eq_true]
  exact ⟨h1, by simp [links_in_contact], h1.trans h2.symm⟩

theorem in_contact_filter_only_validates_witness :
    (∀ n ∈ ["base"], n ∈ (Model.mk ["base", "foot"] [0, 1]).link_names) ∧
    (in_contact (Model.mk ["base", "foot"] [0, 1]) (fun _ _ => 0)
        [(0, 0, 0), (0, 0, 1)] (some ["base"]) =
      Except.ok (links_in_contact (Model.mk ["base", "foot"] [0, 1]) (fun _ _ => 0)
        [(0, 0, 0), (0, 0, 1)]) ∧
    (links_in_contact (Model.mk ["base", "foot"] [0, 1]) (fun _ _ => 0)
        [(0, 0, 0), (0, 0, 1)]).length = (Model.mk ["base", "foot"] [0, 1]).number_of_links ∧
    in_contact (Model.mk ["base", "foot"] [0, 1]) (fun _ _ => 0)
        [(0, 0, 0), (0, 0, 1)] (some ["base"]) =
      in_contact (Model.mk ["base", "foot"] [0, 1]) (fun _ _ => 0)
        [(0, 0, 0), (0, 0, 1)] none) :=
  ⟨by decide,
    in_contact_filter_only_validates (Model.mk ["base", "foot"] [0, 1]) (fun _ _ => 0)
      [(0, 0, 0), (0, 0, 1)] ["base"] (by decide)⟩

end Detection

namespace Estimator

/-- The soft-contact parameter set: stiffness `K`, damping `D` and static
friction coefficient `μ` (`SoftContactsParams` of `jaxsim.rbda.soft_contacts`,
restricted to the fields the estimator derives). -/
structure SoftContactsParams where
  K : ℚ
  D : ℚ
  μ : ℚ
deriving DecidableEq

/-- The error of the spec's Parameter Estimator for a non-positive mass or a
non-positive number of support points (`InvalidModelError`). -/
inductive EstimatorError where
  | InvalidModelError
deriving DecidableEq

/-- The inputs `estimate_good_soft_contacts_parameters` reads from the model
and its external providers: the total mass, the center-of-mass height and the
collidable-point heights evaluated at the zero-velocity, zero-joint reference
state (`JaxSimModelData.build` with default state; the Mass Properties Provider
and the Kinematics Provider are external per the spec), and whether the model
is floating-base. -/
structure EstModel where
  total_mass : ℚ
  com_height0 : ℚ
  point_heights0 : List ℚ
  floating_base : Bool

/-- The minimum of a list of rationals, as `jnp.min` on a nonempty array
(`W_pz_C.min()` at line 227 of `contact.py`); `0` on the empty list. -/
def listMin : List ℚ → ℚ
  | [] => 0
  | x :: xs => xs.foldl min x

/-- Lines 215-229 of `contact.py` (`estimate_model_height`): twice the distance
between the CoM height and the lowest collidable point for a floating-base
model, twice the CoM height for a fixed-base model, at the zero reference
state. -/
def estimate_model_height (m : EstModel) : ℚ :=
  if m.floating_base then 2 * (m.com_height0 - listMin m.point_heights0)
  else 2 * m.com_height0

/-- Lines 231-235 of `contact.py`: the target maximum penetration is the given
`max_penetration` when present, else `0.005 * estimate_model_height(model)`. -/
def max_penetration_used (m : EstModel) (max_penetration : Option ℚ) : ℚ :=
  max_penetration.getD (0.005 * estimate_model_height m)

/-- Modelled from the spec:
`jaxsim.rbda.soft_contacts.SoftContactsParams.build_default_from_jaxsim_model`
is not under `src/`; §4.5 of the spec gives its algorithm.  It fails with
`InvalidModelError` if the mass is non-positive or `nc ≤ 0`; otherwise the
per-point steady-state force is `F = mass·g / nc`, the stiffness is
`K = F / max_penetration`, and the damping is
`D = ζ · 2·√(K · effective_mass_per_point)` with
`effective_mass_per_point = mass / nc`.  The square root is abstracted as the
function argument `sqrt`. -/
def build_default_from_jaxsim_model (sqrt : ℚ → ℚ)
    (total_mass standard_gravity static_friction : ℚ) (nc : ℤ)
    (ζ max_penetration : ℚ) : Except EstimatorError SoftContactsParams :=
  if total_mass ≤ 0 ∨ nc ≤ 0 then
    Except.error EstimatorError.InvalidModelError
  else
    let F := total_mass * standard_gravity / (nc : ℚ)
    let K := F / max_penetration
    let m_eff := total_mass / (nc : ℚ)
    let D := ζ * (2 * sqrt (K * m_eff))
    Except.ok ⟨K, D, static_friction⟩

/-- Lines 181-250 of `contact.py` (`estimate_good_soft_contacts_parameters`):
select the target penetration, then build the default parameter set. -/
def estimate_good_soft_contacts_parameters (sqrt : ℚ → ℚ) (m : EstModel)
    (standard_gravity static_friction : ℚ) (nc : ℤ) (ζ : ℚ)
    (max_penetration : Option ℚ) : Except EstimatorError SoftContactsParams :=
  build_default_from_jaxsim_model sqrt m.total_mass standard_gravity
    static_friction nc ζ (max_penetration_used m max_penetration)

theorem foldl_min_le_init : ∀ (xs : List ℚ) (a : ℚ), xs.foldl min a ≤ a
  | [], a => le_refl a
  | x :: xs, a => le_trans (foldl_min_le_init xs (min a x)) (min_le_left a x)

theorem foldl_min_le_mem : ∀ (xs : List ℚ) (a x : ℚ), x ∈ xs → xs.foldl min a ≤ x
  | y :: ys, a, x, hx => by
    rcases List.mem_cons.mp hx with h | h
    · subst h
      exact le_trans (foldl_min_le_init ys (min a x)) (min_le_right a x)
    · exact foldl_min_le_mem ys (min a y) x h

theorem foldl_min_mem : ∀ (xs : List ℚ) (a : ℚ), xs.foldl min a = a ∨ xs.foldl min a ∈ xs
  | [], _ => Or.inl rfl
  | x :: xs, a => by
    rcases foldl_min_mem xs (min a x) with h | h
    · rcases min_cases a x with ⟨hm, _⟩ | ⟨hm, _⟩
      · exact Or.inl (by rw [List.foldl_cons, h, hm])
      · exact Or.inr (by rw [List.foldl_cons, h, hm]; exact List.mem_cons_self x xs)
    · exact Or.inr (List.mem_cons_of_mem x h)

theorem listMin_mem : ∀ (l : List ℚ), l ≠ [] → listMin l ∈ l
  | [], h => absurd rfl h
  | x :: xs, _ => by
    rcases foldl_min_mem xs x with h | h
    · exact List.mem_cons.mpr (Or.inl (by simpa [listMin] using h))
    · exact List.mem_cons_of_mem x (by simpa [listMin] using h)

theorem listMin_le (l : List ℚ) (x : ℚ) (hx : x ∈ l) : listMin l ≤ x := by
  match l, hx with
  | y :: ys, hx =>
    have h : ys.foldl min y ≤ x := by
      rcases List.mem_cons.mp hx with h | h
      · exact h ▸ foldl_min_le_init ys y
      · exact foldl_min_le_mem ys y x h
    simpa [listMin] using h

/-- C5: without an explicit `max_penetration`, the target penetration is
`0.005 ×` the model height evaluated at the zero reference state, where the
height is `2 × (CoM height − minimum collidable-point height)` for a
floating-base model and `2 × CoM height` for a fixed-base one (with
`listMin` being the least element of the nonempty height list); an explicit
`max_penetration` is used unchanged; and
`estimate_good_soft_contacts_parameters` forwards exactly this value to the
parameter builder. -/
theorem estimate_max_penetration_spec (sqrt : ℚ → ℚ) (m : EstModel)
    (g μs : ℚ) (nc : ℤ) (ζ d : ℚ) (mp : Option ℚ) :
    max_penetration_used m (some d) = d ∧
    max_penetration_used m none = 0.005 * estimate_model_height m ∧
    (m.floating_base = true →
      estimate_model_height m = 2 * (m.com_height0 - listMin m.point_heights0)) ∧
    (m.floating_base = false → estimate_model_height m = 2 * m.com_height0) ∧
    (m.point_heights0 ≠ [] →
      listMin m.point_heights0 ∈ m.point_heights0 ∧
      ∀ x ∈ m.point_heights0, listMin m.point_heights0 ≤ x) ∧
    estimate_good_soft_contacts_parameters sqrt m g μs nc ζ mp =
      build_default_from_jaxsim_model sqrt m.total_mass g μs nc ζ
        (max_penetration_used m mp) := by
  refine ⟨rfl, rfl, fun h => ?_, fun h => ?_, fun h => ?_, rfl⟩
  · simp [estimate_model_height, h]
  · simp [estimate_model_height, h]
  · exact ⟨listMin_mem _ h, fun x hx => listMin_le _ x hx⟩

theorem estimate_max_penetration_spec_witness :
    max_penetration_used (EstModel.mk 10 1 [-2, 0] true) (some 3) = 3 ∧
    max_penetration_used (EstModel.mk 10 1 [-2, 0] true) none =
      0.005 * estimate_model_height (EstModel.mk 10 1 [-2, 0] true) ∧
    (EstModel.mk 10 1 [-2, 0] true).floating_base = true ∧
    estimate_model_height (EstModel.mk 10 1 [-2, 0] true) =
      2 * ((EstModel.mk 10 1 [-2, 0] true).com_height0 -
        listMin (EstModel.mk 10 1 [-2, 0] true).point_heights0) :=
  ⟨(estimate_max_penetration_spec id (EstModel.mk 10 1 [-2, 0] true)
      10 (1/2) 1 1 3 (some 3)).1,
   (estimate_max_penetration_spec id (EstModel.mk 10 1 [-2, 0] true)
      10 (1/2) 1 1 3 (some 3)).2.1,
   rfl,
   (estimate_max_penetration_spec id (EstModel.mk 10 1 [-2, 0] true)
      10 (1/2) 1 1 3 (some 3)).2.2.1 rfl⟩

/-- C6: for a model of positive total mass `m`, with `n = 1` active support
point, damping ratio `ζ = 1` and an explicit positive target penetration
`δ_max`, the estimator succeeds with a stiffness `K` satisfying
`K · δ_max = m · g` (the spring balances the supported weight at the target
penetration) and a damping `D = 2·√(K · m)` — the critical-damping formula at
the per-point effective mass `m / n = m`. -/
theorem estimator_balances_weight_at_target_penetration (sqrt : ℚ → ℚ)
    (m : EstModel) (g μs d : ℚ) (hm : 0 < m.total_mass) (hd : 0 < d) :
    ∃ p : SoftContactsParams,
      estimate_good_soft_contacts_parameters sqrt m g μs 1 1 (some d) =
        Except.ok p ∧
      p.K * d = m.total_mass * g ∧
      p.D = 2 * sqrt (p.K * m.total_mass) := by
  unfold estimate_good_soft_contacts_parameters build_default_from_jaxsim_model
    max_penetration_used
  rw [if_neg (by push_neg; exact ⟨hm, by norm_num⟩)]
  refine ⟨_, rfl, ?_, ?_⟩
  · show m.total_mass * g / ((1 : ℤ) : ℚ) / d * d = m.total_mass * g
    push_cast
    field_simp
  · show 1 * (2 * sqrt (m.total_mass * g / ((1 : ℤ) : ℚ) / d *
        (m.total_mass / ((1 : ℤ) : ℚ)))) =
      2 * sqrt (m.total_mass * g / ((1 : ℤ) : ℚ) / d * m.total_mass)
    norm_num

theorem estimator_balances_weight_at_target_penetration_witness :
    (0 : ℚ) < (EstModel.mk 5 1 [] false).total_mass ∧ (0 : ℚ) < 2 ∧
    ∃ p : SoftContactsParams,
      estimate_good_soft_contacts_parameters id (EstModel.mk 5 1 [] false)
          10 (1/2) 1 1 (some 2) = Except.ok p ∧
      p.K * 2 = (EstModel.mk 5 1 [] false).total_mass * 10 ∧
      p.D = 2 * id (p.K * (EstModel.mk 5 1 [] false).total_mass) :=
  ⟨by norm_num, by norm_num,
    estimator_balances_weight_at_target_penetration id (EstModel.mk 5 1 [] false)
      10 (1/2) 2 (by norm_num) (by norm_num)⟩

/-- C7: the estimator fails with `InvalidModelError` exactly when the total
mass is non-positive or the number of active support points is non-positive,
and returns a parameter set exactly when both preconditions hold. -/
theorem estimator_invalid_model_iff (sqrt : ℚ → ℚ) (m : EstModel) (g μs : ℚ)
    (nc : ℤ) (ζ : ℚ) (mp : Option ℚ) :
    (estimate_good_soft_contacts_parameters sqrt m g μs nc ζ mp =
        Except.error EstimatorError.InvalidModelError ↔
      m.total_mass ≤ 0 ∨ nc ≤ 0) ∧
    ((∃ p, estimate_good_soft_contacts_parameters sqrt m g μs nc ζ mp =
        Except.ok p) ↔
      0 < m.total_mass ∧ 0 < nc) := by
  unfold estimate_good_soft_contacts_parameters build_default_from_jaxsim_model
  by_cases h : m.total_mass ≤ 0 ∨ nc ≤ 0
  · rw [if_pos h]
    refine ⟨⟨fun _ => h, fun _ => rfl⟩, ?_, ?_⟩
    · rintro ⟨p, hp⟩
      exact Except.noConfusion hp
    · rintro ⟨h1, h2⟩
      rcases h with h | h
      · exact absurd h1 (not_lt.mpr h)
      · exact absurd h2 (not_lt.mpr h)
  · rw [if_neg h]
    push_neg at h
    refine ⟨⟨fun hc => Except.noConfusion hc, fun hc => ?_⟩, fun _ => h, fun _ => ⟨_, rfl⟩⟩
    rcases hc with hc | hc
    · exact absurd hc (not_le.mpr h.1)
    · exact absurd hc (not_le.mpr h.2)

end Estimator

/-- A 3D vector of reals (a world-frame position, velocity, force or
deformation). -/
abbrev Vec3 := ℝ × ℝ × ℝ

namespace SoftContact

/-- The tangential (horizontal) part of a vector, for the flat `+z` terrain
normal convention of the spec. -/
def tang (v : Vec3) : Vec3 := (v.1, v.2.1, 0)

/-- The Euclidean norm of a 3D vector. -/
noncomputable def norm3 (v : Vec3) : ℝ :=
  Real.sqrt (v.1 ^ 2 + v.2.1 ^ 2 + v.2.2 ^ 2)

/-- The Euclidean inner product of two 3D vectors. -/
def dot3 (a b : Vec3) : ℝ := a.1 * b.1 + a.2.1 * b.2.1 + a.2.2 * b.2.2

/-- The soft-contact parameters used by the force law: stiffness `K`, damping
`D`, static friction coefficient `μ`, and the auxiliary relaxation rate
constant of §3 of the spec (the velocity-smoothing/relaxation time constant
needed by the force law). -/
structure SoftContactsParams where
  K : ℝ
  D : ℝ
  μ : ℝ
  relaxation : ℝ

/-- Modelled from the spec: the per-point soft contact force law
`jaxsim.rbda.SoftContacts.contact_model` is not under `src/`; §4.3 of the spec
gives its algorithm.  Penetration is `δ = height(x, y) − z`; an inactive point
(`δ ≤ 0`) produces exactly zero 6D force and a deformation rate that relaxes
the existing deformation toward zero (here `−relaxation • m`).  An active
point gets normal force `f_n = max(0, K·δ − D·v_z)`, elastic tangential force
`K • tang m` capped at the Coulomb cone `μ·f_n`: above the cone it is rescaled
to the cone boundary and the deformation rate is the tangential velocity minus
a relaxation term proportional to the fraction by which the cone was exceeded;
inside the cone the deformation rate is the tangential velocity unmodified.
The total force is the normal force along `+z` plus the capped tangential
force, with zero angular part. -/
noncomputable def contact_model (height : ℝ → ℝ → ℝ) (prm : SoftContactsParams)
    (p v m : Vec3) : (Vec3 × Vec3) × Vec3 :=
  let δ := height p.1 p.2.1 - p.2.2
  if δ ≤ 0 then
    (((0, 0, 0), (0, 0, 0)), (-prm.relaxation) • m)
  else
    let fn := max 0 (prm.K * δ - prm.D * v.2.2)
    let ftel := prm.K • tang m
    let cone := prm.μ * fn
    if cone < norm3 ftel then
      (((cone / norm3 ftel) • ftel + ((0 : ℝ), (0 : ℝ), fn), (0, 0, 0)),
        tang v - (((norm3 ftel - cone) / norm3 ftel) * prm.relaxation) • tang m)
    else
      ((ftel + ((0 : ℝ), (0 : ℝ), fn), (0, 0, 0)), tang v)

theorem norm3_nonneg (v : Vec3) : 0 ≤ norm3 v := Real.sqrt_nonneg _

theorem norm3_smul (a : ℝ) (v : Vec3) : norm3 (a • v) = |a| * norm3 v := by
  unfold norm3
  have h : (a • v).1 ^ 2 + (a • v).2.1 ^ 2 + (a • v).2.2 ^ 2 =
      a ^ 2 * (v.1 ^ 2 + v.2.1 ^ 2 + v.2.2 ^ 2) := by
    simp only [Prod.smul_fst, Prod.smul_snd, smul_eq_mul]
    ring
  rw [h, Real.sqrt_mul (sq_nonneg a), Real.sqrt_sq_eq_abs]

theorem tang_add (u w : Vec3) : tang (u + w) = tang u + tang w := by
  simp [tang, Prod.ext_iff]

theorem tang_smul (a : ℝ) (u : Vec3) : tang (a • u) = a • tang u := by
  simp [tang, Prod.ext_iff]

theorem tang_tang (u : Vec3) : tang (tang u) = tang u := rfl

theorem tang_vert (z : ℝ) : tang ((0 : ℝ), (0 : ℝ), z) = 0 := rfl

theorem dot3_self_pos (m : Vec3) (hm : m ≠ 0) : 0 < dot3 m m := by
  have h : dot3 m m = m.1 ^ 2 + m.2.1 ^ 2 + m.2.2 ^ 2 := by unfold dot3; ring
  rcases eq_or_lt_of_le (show (0 : ℝ) ≤ m.1 ^ 2 + m.2.1 ^ 2 + m.2.2 ^ 2 by positivity)
    with he | hl
  · exfalso
    apply hm
    have h1 : m.1 = 0 := by nlinarith [sq_nonneg m.1, sq_nonneg m.2.1, sq_nonneg m.2.2]
    have h2 : m.2.1 = 0 := by nlinarith [sq_nonneg m.1, sq_nonneg m.2.1, sq_nonneg m.2.2]
    have h3 : m.2.2 = 0 := by nlinarith [sq_nonneg m.1, sq_nonneg m.2.1, sq_nonneg m.2.2]
    exact Prod.ext h1 (Prod.ext h2 h3)
  · rw [h]; exact hl

theorem dot3_smul_left (a : ℝ) (u w : Vec3) : dot3 (a • u) w = a * dot3 u w := by
  simp only [dot3, Prod.smul_fst, Prod.smul_snd, smul_eq_mul]
  ring

theorem contact_model_inactive (height : ℝ → ℝ → ℝ) (prm : SoftContactsParams)
    (p v m : Vec3) (hδ : height p.1 p.2.1 - p.2.2 ≤ 0) :
    contact_model height prm p v m =
      (((0, 0, 0), (0, 0, 0)), (-prm.relaxation) • m) := by
  simp only [contact_model]
  rw [if_pos hδ]

/-- C2: for an active point (`δ > 0`) and a nonnegative friction coefficient,
the tangential component of the force returned by the soft contact model stays
inside the Coulomb cone, `‖f_t‖ ≤ μ·f_n` (tolerance zero); when the elastic
tangential force exceeds the cone the deformation rate is the tangential
velocity minus the cone-excess relaxation term, and when it is within the cone
the deformation rate is the tangential velocity unmodified. -/
theorem friction_cone_containment (height : ℝ → ℝ → ℝ) (prm : SoftContactsParams)
    (p v m : Vec3) (hδ : 0 < height p.1 p.2.1 - p.2.2) (hμ : 0 ≤ prm.μ) :
    norm3 (tang (contact_model height prm p v m).1.1) ≤
      prm.μ * max 0 (prm.K * (height p.1 p.2.1 - p.2.2) - prm.D * v.2.2) ∧
    (prm.μ * max 0 (prm.K * (height p.1 p.2.1 - p.2.2) - prm.D * v.2.2) <
        norm3 (prm.K • tang m) →
      (contact_model height prm p v m).2 =
        tang v - (((norm3 (prm.K • tang m) -
            prm.μ * max 0 (prm.K * (height p.1 p.2.1 - p.2.2) - prm.D * v.2.2)) /
          norm3 (prm.K • tang m)) * prm.relaxation) • tang m) ∧
    (norm3 (prm.K • tang m) ≤
        prm.μ * max 0 (prm.K * (height p.1 p.2.1 - p.2.2) - prm.D * v.2.2) →
      (contact_model height prm p v m).2 = tang v) := by
  have hfn : (0 : ℝ) ≤ max 0 (prm.K * (height p.1 p.2.1 - p.2.2) - prm.D * v.2.2) :=
    le_max_left _ _
  have hcone : (0 : ℝ) ≤ prm.μ * max 0 (prm.K * (height p.1 p.2.1 - p.2.2) - prm.D * v.2.2) :=
    mul_nonneg hμ hfn
  have htf : tang (prm.K • tang m) = prm.K • tang m := by
    rw [tang_smul, tang_tang]
  simp only [contact_model]
  rw [if_neg (not_le.mpr hδ)]
  by_cases hc : prm.μ * max 0 (prm.K * (height p.1 p.2.1 - p.2.2) - prm.D * v.2.2) <
      norm3 (prm.K • tang m)
  · rw [if_pos hc]
    have hn : (0 : ℝ) < norm3 (prm.K • tang m) := lt_of_le_of_lt hcone hc
    refine ⟨?_, fun _ => rfl, fun hle => absurd hc (not_lt.mpr hle)⟩
    rw [tang_add, tang_smul, htf, tang_vert, add_zero, norm3_smul,
      abs_of_nonneg (div_nonneg hcone hn.le), div_mul_cancel₀ _ hn.ne']
  · rw [if_neg hc]
    refine ⟨?_, fun hgt => absurd hgt hc, fun _ => rfl⟩
    rw [tang_add, htf, tang_vert, add_zero]
    exact not_lt.mp hc

theorem friction_cone_containment_witness :
    (0 : ℝ) < (fun _ _ => (0 : ℝ)) 0 0 - (-(1 / 100) : ℝ) ∧
    norm3 (tang (contact_model (fun _ _ => 0) (SoftContactsParams.mk 1000 50 (1 / 2) 2)
        ((0 : ℝ), (0 : ℝ), (-(1 / 100) : ℝ)) ((0 : ℝ), (0 : ℝ), (0 : ℝ))
        ((0 : ℝ), (0 : ℝ), (0 : ℝ))).1.1) ≤
      (SoftContactsParams.mk 1000 50 (1 / 2) 2).μ *
        max 0 ((SoftContactsParams.mk 1000 50 (1 / 2) 2).K *
            ((fun _ _ => (0 : ℝ)) 0 0 - (-(1 / 100) : ℝ)) -
          (SoftContactsParams.mk 1000 50 (1 / 2) 2).D * (0 : ℝ)) :=
  ⟨by norm_num,
    (friction_cone_containment (fun _ _ => 0) (SoftContactsParams.mk 1000 50 (1 / 2) 2)
      ((0 : ℝ), (0 : ℝ), (-(1 / 100) : ℝ)) ((0 : ℝ), (0 : ℝ), (0 : ℝ))
      ((0 : ℝ), (0 : ℝ), (0 : ℝ)) (by norm_num) (by norm_num)).1⟩

end SoftContact

namespace Dynamics

/-- A unit quaternion as four reals (the base orientation). -/
abbrev Quat := ℝ × ℝ × ℝ × ℝ

/-- Modelled from the spec: the two external collaborators of `contact.py`
that are not under `src/` — the Kinematics Provider
(`jaxsim.rbda.collidable_points.collidable_points_pos_vel`, §4.2 and §6 of the
spec: base pose, base velocity and joint state to world-frame positions and
velocities of every collidable point) and the Frame/Representation Converter
(`data.inertial_to_other_representation`, §4.1: a pure conversion of a spatial
6D vector from the Inertial frame to a target representation, parameterised by
the base transform and an `is_force` flag). -/
structure Ctx where
  provider : Vec3 → Quat → List ℝ → Vec3 → Vec3 → List ℝ →
    List Vec3 × List Vec3
  convert : VelRepr → Vec3 × Quat → Bool → Vec3 × Vec3 → Vec3 × Vec3

/-- Modelled from the spec: `JaxSimModelData` is not under `src/`.  It carries
the active velocity representation tag, the base pose, the joint state, the
base velocity in its canonical internal (Inertial) storage, and the persistent
tangential-deformation state (`data.state.soft_contacts.tangential_deformation`). -/
structure Data where
  velocity_representation : VelRepr
  base_position : Vec3
  base_quaternion : Quat
  joint_positions : List ℝ
  base_velocity_inertial : Vec3 × Vec3
  joint_velocities : List ℝ
  tangential_deformation : List Vec3

/-- `data.switch_velocity_representation(r)`: the same data with the active
representation replaced. -/
def switch_velocity_representation (d : Data) (r : VelRepr) : Data :=
  { d with velocity_representation := r }

/-- `data.base_transform()`: the world transform of the base, determined by
the base pose. -/
def base_transform (d : Data) : Vec3 × Quat :=
  (d.base_position, d.base_quaternion)

/-- `data.base_velocity()`: the base 6D velocity expressed in the data's
active representation, converted from the canonical internal storage. -/
def base_velocity (ctx : Ctx) (d : Data) : Vec3 × Vec3 :=
  ctx.convert d.velocity_representation (base_transform d) false
    d.base_velocity_inertial

/-- Lines 13-46 of `contact.py` (`collidable_point_kinematics`): switch the
data to the Inertial representation, then hand base pose, base velocity and
joint state to the Kinematics Provider; the result is the world-frame position
and velocity of every collidable point. -/
def collidable_point_kinematics (ctx : Ctx) (d : Data) :
    List Vec3 × List Vec3 :=
  let di := switch_velocity_representation d VelRepr.Inertial
  ctx.provider di.base_position di.base_quaternion di.joint_positions
    (base_velocity ctx di).1 (base_velocity ctx di).2 di.joint_velocities

/-- The per-point inputs of the vmapped `soft_contacts.contact_model` call
(line 120 of `contact.py`): position, velocity and tangential deformation of
each collidable point. -/
def contact_triples (ctx : Ctx) (d : Data) : List (Vec3 × Vec3 × Vec3) :=
  (collidable_point_kinematics ctx d).1.zip
    ((collidable_point_kinematics ctx d).2.zip d.tangential_deformation)

/-- Lines 116-122 of `contact.py`: the 6D force of every collidable point,
expressed in the Inertial frame. -/
noncomputable def inertial_contact_forces (ctx : Ctx) (height : ℝ → ℝ → ℝ)
    (prm : SoftContact.SoftContactsParams) (d : Data) : List (Vec3 × Vec3) :=
  (contact_triples ctx d).map fun t =>
    (SoftContact.contact_model height prm t.1 t.2.1 t.2.2).1

/-- Lines 116-122 of `contact.py`: the material deformation rate of every
collidable point, always expressed in the mixed frame anchored at the point's
current world position. -/
noncomputable def deformation_rates (ctx : Ctx) (height : ℝ → ℝ → ℝ)
    (prm : SoftContact.SoftContactsParams) (d : Data) : List Vec3 :=
  (contact_triples ctx d).map fun t =>
    (SoftContact.contact_model height prm t.1 t.2.1 t.2.2).2

/-- Lines 85-134 of `contact.py` (`collidable_point_dynamics`): the Inertial
per-point forces converted one by one to the data's active representation with
`is_force = True` and the base transform, paired with the unconverted
deformation rates. -/
noncomputable def collidable_point_dynamics (ctx : Ctx) (height : ℝ → ℝ → ℝ)
    (prm : SoftContact.SoftContactsParams) (d : Data) :
    List (Vec3 × Vec3) × List Vec3 :=
  ((inertial_contact_forces ctx height prm d).map fun f =>
      ctx.convert d.velocity_representation (base_transform d) true f,
    deformation_rates ctx height prm d)

/-- C9: `collidable_point_kinematics` returns the same world-frame positions
and velocities for two data objects that are identical except for their active
velocity representation: the computation always switches to the Inertial frame
first. -/
theorem kinematics_independent_of_representation (ctx : Ctx) (d : Data)
    (r₁ r₂ : VelRepr) :
    collidable_point_kinematics ctx { d with velocity_representation := r₁ } =
      collidable_point_kinematics ctx { d with velocity_representation := r₂ } :=
  rfl

/-- C8: the forces returned by `collidable_point_dynamics` are exactly the
Inertial-frame forces of the soft contact model converted one by one with the
frame converter (`is_force = true`, base transform of the data) to the data's
active representation, while the returned deformation rates are the
mixed-frame rates of the soft contact model, unconverted and independent of
the active representation. -/
theorem dynamics_forces_converted_rates_mixed (ctx : Ctx) (height : ℝ → ℝ → ℝ)
    (prm : SoftContact.SoftContactsParams) (d : Data) (r : VelRepr) :
    (collidable_point_dynamics ctx height prm d).1 =
      (inertial_contact_forces ctx height prm d).map
        (fun f => ctx.convert d.velocity_representation (base_transform d) true f) ∧
    (collidable_point_dynamics ctx height prm d).2 =
      deformation_rates ctx height prm d ∧
    (collidable_point_dynamics ctx height prm
        { d with velocity_representation := r }).2 =
      (collidable_point_dynamics ctx height prm d).2 :=
  ⟨rfl, rfl, rfl⟩

/-- C1: a collidable point whose penetration depth `δ = height(x, y) − z` is
non-positive contributes, through `collidable_point_dynamics`, a force equal
to the zero 6D vector — for every stiffness, damping and friction coefficient,
and for every representation converter that maps the zero force to zero (the
converter is a pure linear map per §4.1 of the spec) — and a deformation rate
`−relaxation • m` that relaxes the existing tangential deformation `m` toward
zero (strictly decreasing its square when `m ≠ 0` and the relaxation constant
is positive) rather than leaving it frozen. -/
theorem inactive_point_zero_force_and_relaxation (ctx : Ctx)
    (height : ℝ → ℝ → ℝ) (prm : SoftContact.SoftContactsParams) (d : Data)
    (j : Nat) (p v m : Vec3)
    (hconv : ∀ r bt, ctx.convert r bt true (((0, 0, 0)), ((0, 0, 0))) =
      ((0, 0, 0), (0, 0, 0)))
    (hp : (collidable_point_kinematics ctx d).1[j]? = some p)
    (hv : (collidable_point_kinematics ctx d).2[j]? = some v)
    (hm : d.tangential_deformation[j]? = some m)
    (hδ : height p.1 p.2.1 - p.2.2 ≤ 0) :
    (collidable_point_dynamics ctx height prm d).1[j]? =
      some ((0, 0, 0), (0, 0, 0)) ∧
    (collidable_point_dynamics ctx height prm d).2[j]? =
      some ((-prm.relaxation) • m) ∧
    (0 < prm.relaxation → m ≠ 0 →
      SoftContact.dot3 ((-prm.relaxation) • m) m < 0) := by
  have htrip : (contact_triples ctx d)[j]? = some (p, v, m) := by
    unfold contact_triples
    rw [List.getElem?_zip_eq_some]
    exact ⟨hp, by rw [List.getElem?_zip_eq_some]; exact ⟨hv, hm⟩⟩
  have hcm := SoftContact.contact_model_inactive height prm p v m hδ
  refine ⟨?_, ?_, fun hrel hm0 => ?_⟩
  · show ((inertial_contact_forces ctx height prm d).map fun f =>
      ctx.convert d.velocity_representation (base_transform d) true f)[j]? = _
    rw [List.getElem?_map]
    unfold inertial_contact_forces
    rw [List.getElem?_map, htrip]
    simp only [Option.map_some', hcm]
    rw [hconv]
  · show (deformation_rates ctx height prm d)[j]? = _
    unfold deformation_rates
    rw [List.getElem?_map, htrip]
    simp only [Option.map_some', hcm]
  · rw [SoftContact.dot3_smul_left]
    exact mul_neg_of_neg_of_pos (neg_lt_zero.mpr hrel)
      (SoftContact.dot3_self_pos m hm0)

/-- A concrete context whose provider reports one collidable point at world
position `(0, 0, 1)` with zero velocity, and whose converter is the identity. -/
noncomputable def wCtx : Ctx :=
  ⟨fun _ _ _ _ _ _ => ([((0 : ℝ), (0 : ℝ), (1 : ℝ))], [((0 : ℝ), (0 : ℝ), (0 : ℝ))]),
    fun _ _ _ f => f⟩

/-- Concrete soft-contact parameters `K = 1000`, `D = 50`, `μ = 1/2`,
relaxation rate `2`. -/
noncomputable def wPrm : SoftContact.SoftContactsParams := ⟨1000, 50, 1 / 2, 2⟩

/-- Concrete data: mixed active representation, identity base pose, no joints,
zero base velocity, one point with tangential deformation `(1, 0, 0)`. -/
noncomputable def wData : Data :=
  ⟨VelRepr.Mixed, (0, 0, 0), (1, 0, 0, 0), [], ((0, 0, 0), (0, 0, 0)), [],
    [((1 : ℝ), (0 : ℝ), (0 : ℝ))]⟩

theorem inactive_point_zero_force_and_relaxation_witness :
    ((fun _ _ => (0 : ℝ)) (0 : ℝ) (0 : ℝ) - (1 : ℝ) ≤ 0) ∧
    (collidable_point_dynamics wCtx (fun _ _ => 0) wPrm wData).1[0]? =
      some ((0, 0, 0), (0, 0, 0)) ∧
    (collidable_point_dynamics wCtx (fun _ _ => 0) wPrm wData).2[0]? =
      some ((-wPrm.relaxation) • ((1 : ℝ), (0 : ℝ), (0 : ℝ))) ∧
    (0 < wPrm.relaxation → ((1 : ℝ), (0 : ℝ), (0 : ℝ)) ≠ (0 : Vec3) →
      SoftContact.dot3 ((-wPrm.relaxation) • ((1 : ℝ), (0 : ℝ), (0 : ℝ)))
        ((1 : ℝ), (0 : ℝ), (0 : ℝ)) < 0) :=
  let h := inactive_point_zero_force_and_relaxation wCtx (fun _ _ => 0) wPrm wData
    0 ((0 : ℝ), (0 : ℝ), (1 : ℝ)) ((0 : ℝ), (0 : ℝ), (0 : ℝ))
    ((1 : ℝ), (0 : ℝ), (0 : ℝ)) (fun _ _ => rfl) rfl rfl rfl (by norm_num)
  ⟨by norm_num, h.1, h.2.1, h.2.2⟩

end Dynamics

end Contact
